import Mathlib

/-!
Shallow embedding of the turnip deployment/trade pipeline.

The embedded code is `src/solana/pumpportal.ts` (class `PumpPortalClient`
with methods `uploadMetadata`, `deploy`, `buy`, `sell`) and the agent
wrapper `TurnipAgent.deploy` from `agent.ts`.

Modelling conventions:
  * JavaScript numbers are modelled as `Rat`; the claims under study concern
    only defaulting logic (0 versus 10 versus unset), not float arithmetic.
  * An optional (possibly-undefined) value is `Option`; JavaScript
    truthiness tests on numbers and strings are modelled explicitly
    (`jsOrNum`, `jsOrStr`: both `undefined` and `0` or the empty string are
    falsy).
  * Every external call (HTTP post, `sendTransaction`, `confirmTransaction`,
    `VersionedTransaction.deserialize`, `Keypair.generate`) is an oracle
    supplied by an environment record: the environment fixes the outcome of
    each call of one method invocation. A thrown JavaScript exception is a
    `JsException`; an `async` body that can throw is a function into
    `Except JsException`.
  * A keypair is identified with its base58-encoded public address, the only
    part of it the embedded code reads (`publicKey.toBase58()`); signing is
    an opaque effect recorded in the trace.
  * Each method also returns the list of stage calls it performed, in order,
    so that never-invoked / parameters-passed claims are statable.
-/

namespace Turnip

/-- A thrown JavaScript value: an Error object carrying a message, or any
non-Error value (for which the catch blocks substitute the fixed fallback
message). -/
inductive JsException where
  | error (message : String)
  | nonError
  deriving DecidableEq, Repr

/-- The message extracted at a catch boundary:
`error instanceof Error ? error.message : "Unknown error"`. -/
def jsErrorMessage : JsException → String
  | .error m => m
  | .nonError => "Unknown error"

/-- JavaScript `x || d` for an optional number: `undefined` and `0` are
falsy, so both select the default. -/
def jsOrNum (x : Option Rat) (d : Rat) : Rat :=
  match x with
  | none => d
  | some v => if v = 0 then d else v

/-- JavaScript `x || d` for an optional string: `undefined` and the empty
string are falsy, so both select the default. -/
def jsOrStr (x : Option String) (d : String) : String :=
  match x with
  | none => d
  | some s => if s = "" then d else s

/-- A Solana keypair, identified with its base58 public address (the code
only ever reads `publicKey.toBase58()` and passes the keypair to `sign`). -/
structure Keypair where
  publicKey : String
  deriving DecidableEq, Repr

/-- The image payload of `TokenMetadata`: `Buffer | string` in the source. -/
inductive ImagePayload where
  | buffer (bytes : List Nat)
  | base64 (s : String)
  deriving DecidableEq, Repr

/-- `TokenMetadata` from pumpportal.ts. -/
structure TokenMetadata where
  name : String
  symbol : String
  description : String
  image : ImagePayload
  twitter : Option String
  telegram : Option String
  website : Option String
  deriving DecidableEq, Repr

/-- `DeployOptions` from pumpportal.ts: optional fields are `Option`
(`undefined` = `none`). -/
structure DeployOptions where
  metadata : TokenMetadata
  devBuyAmount : Option Rat
  slippage : Option Rat
  deriving DecidableEq, Repr

/-- `DeployResult` from pumpportal.ts. -/
structure DeployResult where
  success : Bool
  mint : Option String
  signature : Option String
  metadataUri : Option String
  pumpUrl : Option String
  error : Option String
  deriving DecidableEq, Repr

/-- The result shape of `buy` and `sell`. -/
structure TradeResult where
  success : Bool
  signature : Option String
  error : Option String
  deriving DecidableEq, Repr

/-- The `tokenMetadata` sub-object of a create request. -/
structure TokenMetadataFields where
  name : String
  symbol : String
  uri : String
  deriving DecidableEq, Repr

/-- The JSON body POSTed to `/trade-local`. -/
structure TradeRequest where
  publicKey : String
  action : String
  tokenMetadata : Option TokenMetadataFields
  mint : String
  denominatedInSol : String
  amount : Rat
  slippage : Rat
  priorityFee : Rat
  pool : String
  deriving DecidableEq, Repr

/-- The options object passed to `connection.sendTransaction`. A field the
source omits from the object literal is `none`. -/
structure SendOptions where
  skipPreflight : Bool
  preflightCommitment : String
  maxRetries : Option Nat
  deriving DecidableEq, Repr

/-- The `value` part of a `confirmTransaction` response; `err` is the
on-chain error object, carried here as its JSON rendering (the code only
passes it to `JSON.stringify`). `none` models a null error. -/
structure ConfirmValue where
  err : Option String
  deriving DecidableEq, Repr

/-- One observable stage call of a pipeline invocation. -/
inductive Event where
  | uploadCall
  | buildCall (req : TradeRequest)
  | deserializeCall
  | signCall (signers : List Keypair)
  | sendCall (opts : SendOptions)
  | confirmCall (commitment : String)
  deriving DecidableEq, Repr

/-- Oracle for `uploadMetadata`: the outcome of the `axios.post` to
`/ipfs`, reduced to the `metadataUri` field of `response.data`
(`none` = field absent or null; `some ""` = present but empty, also falsy). -/
structure UploadEnv where
  post : Except JsException (Option String)
  deriving Repr

/-- Oracle for the Builder/Signer/Broadcaster/Poller stages of one
invocation: the outcome of the `/trade-local` post (its `response.data`
body, `none` = absent), of `VersionedTransaction.deserialize`, of
`sendTransaction` (a signature) and of `confirmTransaction`. -/
structure PipelineEnv where
  build : Except JsException (Option String)
  deserialize : Except JsException Unit
  send : Except JsException String
  confirm : Except JsException ConfirmValue
  deriving Repr

/-- Oracle for one `deploy` invocation: the upload outcome, the freshly
generated mint keypair (`Keypair.generate()`), and the trade pipeline
outcomes. -/
structure DeployEnv where
  uploadEnv : UploadEnv
  mintKeypair : Keypair
  pipeline : PipelineEnv
  deriving Repr

/-- `PumpPortalClient`: the only instance state the embedded methods read
is the wallet keypair (`baseUrl` is a constant, the connection is part of
the oracle). -/
structure PumpPortalClient where
  wallet : Keypair
  deriving DecidableEq, Repr

/-- `PumpPortalClient.uploadMetadata`: posts the multipart form and throws
unless `response.data.metadataUri` is truthy. -/
def uploadMetadata (_metadata : TokenMetadata) (env : UploadEnv) :
    Except JsException String :=
  match env.post with
  | .error e => .error e
  | .ok none => .error (.error "Failed to upload metadata to IPFS")
  | .ok (some uri) =>
      if uri = "" then .error (.error "Failed to upload metadata to IPFS")
      else .ok uri

/-- The create-action JSON body built inside `deploy`. -/
def createRequest (walletPublicKey : String) (options : DeployOptions)
    (metadataUri : String) (mintAddress : String) : TradeRequest :=
  { publicKey := walletPublicKey
    action := "create"
    tokenMetadata := some { name := options.metadata.name
                            symbol := options.metadata.symbol
                            uri := metadataUri }
    mint := mintAddress
    denominatedInSol := "true"
    amount := jsOrNum options.devBuyAmount 0
    slippage := jsOrNum options.slippage 10
    priorityFee := 0.0005
    pool := "pump" }

/-- The buy-action JSON body built inside `buy`. -/
def buyRequest (walletPublicKey : String) (mint : String)
    (solAmount slippage : Rat) : TradeRequest :=
  { publicKey := walletPublicKey
    action := "buy"
    tokenMetadata := none
    mint := mint
    denominatedInSol := "true"
    amount := solAmount
    slippage := slippage
    priorityFee := 0.0005
    pool := "pump" }

/-- The sell-action JSON body built inside `sell`. -/
def sellRequest (walletPublicKey : String) (mint : String)
    (tokenAmount slippage : Rat) : TradeRequest :=
  { publicKey := walletPublicKey
    action := "sell"
    tokenMetadata := none
    mint := mint
    denominatedInSol := "false"
    amount := tokenAmount
    slippage := slippage
    priorityFee := 0.0005
    pool := "pump" }

/-- The `sendTransaction` options deploy passes. -/
def deploySendOpts : SendOptions :=
  { skipPreflight := false
    preflightCommitment := "confirmed"
    maxRetries := some 3 }

/-- The `sendTransaction` options `buy` and `sell` pass (no `maxRetries`
field in the object literal). -/
def tradeSendOpts : SendOptions :=
  { skipPreflight := false
    preflightCommitment := "confirmed"
    maxRetries := none }

/-- The try-block of `PumpPortalClient.deploy`: upload, generate the mint
keypair, build, deserialize, sign with wallet and mint keypair, broadcast,
confirm, inspect the on-chain error. Returns the thrown exception or the
success record, with the trace of stage calls performed. -/
def deployAttempt (c : PumpPortalClient) (options : DeployOptions)
    (env : DeployEnv) : Except JsException DeployResult × List Event :=
  match uploadMetadata options.metadata env.uploadEnv with
  | .error e => (.error e, [.uploadCall])
  | .ok metadataUri =>
    let mintKeypair := env.mintKeypair
    let req := createRequest c.wallet.publicKey options metadataUri
        mintKeypair.publicKey
    match env.pipeline.build with
    | .error e => (.error e, [.uploadCall, .buildCall req])
    | .ok dataOpt =>
      match dataOpt with
      | none =>
          (.error (.error "No response from PumpPortal API"),
           [.uploadCall, .buildCall req])
      | some data =>
        if data = "" then
          (.error (.error "No response from PumpPortal API"),
           [.uploadCall, .buildCall req])
        else
          match env.pipeline.deserialize with
          | .error e =>
              (.error e, [.uploadCall, .buildCall req, .deserializeCall])
          | .ok _ =>
            match env.pipeline.send with
            | .error e =>
                (.error e,
                 [.uploadCall, .buildCall req, .deserializeCall,
                  .signCall [c.wallet, mintKeypair], .sendCall deploySendOpts])
            | .ok signature =>
              match env.pipeline.confirm with
              | .error e =>
                  (.error e,
                   [.uploadCall, .buildCall req, .deserializeCall,
                    .signCall [c.wallet, mintKeypair], .sendCall deploySendOpts,
                    .confirmCall "confirmed"])
              | .ok confirmation =>
                match confirmation.err with
                | some errObj =>
                    (.error (.error ("Transaction failed: " ++ errObj)),
                     [.uploadCall, .buildCall req, .deserializeCall,
                      .signCall [c.wallet, mintKeypair],
                      .sendCall deploySendOpts, .confirmCall "confirmed"])
                | none =>
                    (.ok { success := true
                           mint := some mintKeypair.publicKey
                           signature := some signature
                           metadataUri := some metadataUri
                           pumpUrl := some
                             ("https://pump.fun/" ++ mintKeypair.publicKey)
                           error := none },
                     [.uploadCall, .buildCall req, .deserializeCall,
                      .signCall [c.wallet, mintKeypair],
                      .sendCall deploySendOpts, .confirmCall "confirmed"])

/-- `PumpPortalClient.deploy`: the try-block wrapped by the catch that
converts any thrown exception into a failure record. -/
def PumpPortalClient.deploy (c : PumpPortalClient) (options : DeployOptions)
    (env : DeployEnv) : DeployResult × List Event :=
  match deployAttempt c options env with
  | (.ok r, tr) => (r, tr)
  | (.error e, tr) =>
      ({ success := false, mint := none, signature := none,
         metadataUri := none, pumpUrl := none,
         error := some (jsErrorMessage e) }, tr)

/-- The try-block of `PumpPortalClient.buy`. Unlike `deploy` it performs no
`response.data` check before deserializing, passes no `maxRetries`, and
ignores the value returned by `confirmTransaction`. -/
def buyAttempt (c : PumpPortalClient) (mint : String) (solAmount : Rat)
    (slippage : Rat) (env : PipelineEnv) :
    Except JsException TradeResult × List Event :=
  let req := buyRequest c.wallet.publicKey mint solAmount slippage
  match env.build with
  | .error e => (.error e, [.buildCall req])
  | .ok _dataOpt =>
    match env.deserialize with
    | .error e => (.error e, [.buildCall req, .deserializeCall])
    | .ok _ =>
      match env.send with
      | .error e =>
          (.error e,
           [.buildCall req, .deserializeCall, .signCall [c.wallet],
            .sendCall tradeSendOpts])
      | .ok signature =>
        match env.confirm with
        | .error e =>
            (.error e,
             [.buildCall req, .deserializeCall, .signCall [c.wallet],
              .sendCall tradeSendOpts, .confirmCall "confirmed"])
        | .ok _confirmation =>
            (.ok { success := true, signature := some signature, error := none },
             [.buildCall req, .deserializeCall, .signCall [c.wallet],
              .sendCall tradeSendOpts, .confirmCall "confirmed"])

/-- `PumpPortalClient.buy`; the `slippage` parameter has TypeScript default
10 (applied only to `undefined`, modelled by `Option.getD`). -/
def PumpPortalClient.buy (c : PumpPortalClient) (mint : String)
    (solAmount : Rat) (slippage : Option Rat) (env : PipelineEnv) :
    TradeResult × List Event :=
  match buyAttempt c mint solAmount (slippage.getD 10) env with
  | (.ok r, tr) => (r, tr)
  | (.error e, tr) =>
      ({ success := false, signature := none,
         error := some (jsErrorMessage e) }, tr)

/-- The try-block of `PumpPortalClient.sell`; identical to the buy pipeline
except for the request body. -/
def sellAttempt (c : PumpPortalClient) (mint : String) (tokenAmount : Rat)
    (slippage : Rat) (env : PipelineEnv) :
    Except JsException TradeResult × List Event :=
  let req := sellRequest c.wallet.publicKey mint tokenAmount slippage
  match env.build with
  | .error e => (.error e, [.buildCall req])
  | .ok _dataOpt =>
    match env.deserialize with
    | .error e => (.error e, [.buildCall req, .deserializeCall])
    | .ok _ =>
      match env.send with
      | .error e =>
          (.error e,
           [.buildCall req, .deserializeCall, .signCall [c.wallet],
            .sendCall tradeSendOpts])
      | .ok signature =>
        match env.confirm with
        | .error e =>
            (.error e,
             [.buildCall req, .deserializeCall, .signCall [c.wallet],
              .sendCall tradeSendOpts, .confirmCall "confirmed"])
        | .ok _confirmation =>
            (.ok { success := true, signature := some signature, error := none },
             [.buildCall req, .deserializeCall, .signCall [c.wallet],
              .sendCall tradeSendOpts, .confirmCall "confirmed"])

/-- `PumpPortalClient.sell`; the `slippage` parameter has TypeScript default
10. -/
def PumpPortalClient.sell (c : PumpPortalClient) (mint : String)
    (tokenAmount : Rat) (slippage : Option Rat) (env : PipelineEnv) :
    TradeResult × List Event :=
  match sellAttempt c mint tokenAmount (slippage.getD 10) env with
  | (.ok r, tr) => (r, tr)
  | (.error e, tr) =>
      ({ success := false, signature := none,
         error := some (jsErrorMessage e) }, tr)

/-- The fields of `TurnipConfig` that `TurnipAgent.deploy`, `buyToken` and
`sellToken` read; both are optional in the interface. -/
structure TurnipConfig where
  defaultSlippage : Option Rat
  devBuyAmount : Option Rat
  deriving DecidableEq, Repr

/-- A generated image as consumed by `TurnipAgent.deploy` (only `base64` is
read). -/
structure GeneratedImage where
  base64 : String
  deriving DecidableEq, Repr

/-- The options object of `TurnipAgent.deploy`. -/
structure AgentDeployOptions where
  image : GeneratedImage
  name : String
  ticker : String
  description : Option String
  twitter : Option String
  telegram : Option String
  website : Option String
  devBuyAmount : Option Rat
  slippage : Option Rat
  deriving DecidableEq, Repr

/-- `TurnipAgent`: the state its deploy/trade wrappers read. -/
structure TurnipAgent where
  pumpPortal : PumpPortalClient
  config : TurnipConfig
  deriving DecidableEq, Repr

/-- The `TokenMetadata` object literal built inside `TurnipAgent.deploy`:
the description defaults via `||` to the name-derived string. -/
def agentMetadata (options : AgentDeployOptions) : TokenMetadata :=
  { name := options.name
    symbol := options.ticker
    description := jsOrStr options.description
      (options.name ++ " - AI-generated art token")
    image := .base64 options.image.base64
    twitter := options.twitter
    telegram := options.telegram
    website := options.website }

/-- The `DeployOptions` object `TurnipAgent.deploy` passes to
`pumpPortal.deploy`: `devBuyAmount` and `slippage` fall back to the config
via the nullish-coalescing operator (applied only to `undefined`). -/
def agentDeployOptions (config : TurnipConfig)
    (options : AgentDeployOptions) : DeployOptions :=
  { metadata := agentMetadata options
    devBuyAmount := match options.devBuyAmount with
                    | some v => some v
                    | none => config.devBuyAmount
    slippage := match options.slippage with
                | some v => some v
                | none => config.defaultSlippage }

/-- `TurnipAgent.deploy`. -/
def TurnipAgent.deploy (a : TurnipAgent) (options : AgentDeployOptions)
    (env : DeployEnv) : DeployResult × List Event :=
  a.pumpPortal.deploy (agentDeployOptions a.config options) env

/-- The success record `deploy` assembles, for mint address `a`, broadcast
signature `sig` and metadata URI `uri`. -/
def deploySuccess (a sig uri : String) : DeployResult :=
  { success := true
    mint := some a
    signature := some sig
    metadataUri := some uri
    pumpUrl := some ("https://pump.fun/" ++ a)
    error := none }

/-- The failure record the catch block of `deploy` assembles for message
`msg`. -/
def deployFailure (msg : String) : DeployResult :=
  { success := false
    mint := none
    signature := none
    metadataUri := none
    pumpUrl := none
    error := some msg }

/-- The success record `buy` and `sell` assemble for signature `sig`. -/
def tradeSuccess (sig : String) : TradeResult :=
  { success := true, signature := some sig, error := none }

/-- The failure record the catch blocks of `buy` and `sell` assemble for
message `msg`. -/
def tradeFailure (msg : String) : TradeResult :=
  { success := false, signature := none, error := some msg }

/-- Concrete token metadata used to instantiate theorems. -/
def mdFixture : TokenMetadata :=
  { name := "Cosmic Turnip"
    symbol := "CTRNP"
    description := "a turnip"
    image := .base64 "aW1n"
    twitter := none
    telegram := none
    website := none }

/-- Concrete client used to instantiate theorems. -/
def clientFixture : PumpPortalClient :=
  { wallet := { publicKey := "WALLETADDR" } }

/-- A pipeline oracle in which every stage succeeds and the confirmation
carries a null on-chain error. -/
def pipelineOk : PipelineEnv :=
  { build := .ok (some "AQID")
    deserialize := .ok ()
    send := .ok "SIG111"
    confirm := .ok { err := none } }

/-- A pipeline oracle in which broadcast succeeds but the confirmation
response carries a non-null on-chain error object. -/
def pipelineOnChainErr : PipelineEnv :=
  { build := .ok (some "AQID")
    deserialize := .ok ()
    send := .ok "SIG111"
    confirm := .ok { err := some "InstructionError" } }

/-- A deploy oracle in which every stage succeeds. -/
def envOk : DeployEnv :=
  { uploadEnv := { post := .ok (some "ipfs://meta") }
    mintKeypair := { publicKey := "MINTADDR" }
    pipeline := pipelineOk }

/-- The all-success deploy oracle with a second, distinct mint keypair. -/
def envOk2 : DeployEnv :=
  { uploadEnv := { post := .ok (some "ipfs://meta") }
    mintKeypair := { publicKey := "MINTADDR2" }
    pipeline := pipelineOk }

/-- A deploy oracle whose metadata upload throws. -/
def envUploadFail : DeployEnv :=
  { uploadEnv := { post := .error (.error "upload boom") }
    mintKeypair := { publicKey := "MINTADDR" }
    pipeline := pipelineOk }

/-- A deploy oracle in which every stage up to confirmation succeeds and
the confirmation carries a non-null on-chain error. -/
def envOnChainErr : DeployEnv :=
  { uploadEnv := { post := .ok (some "ipfs://meta") }
    mintKeypair := { publicKey := "MINTADDR" }
    pipeline := pipelineOnChainErr }

/-- Concrete deploy options with both optional amounts unset. -/
def optsFixture : DeployOptions :=
  { metadata := mdFixture, devBuyAmount := none, slippage := none }

/-- Concrete agent deploy options with no description. -/
def agentOptsNoDesc : AgentDeployOptions :=
  { image := { base64 := "aW1n" }
    name := "Cosmic Turnip"
    ticker := "CTRNP"
    description := none
    twitter := none
    telegram := none
    website := none
    devBuyAmount := none
    slippage := none }

/-- Concrete agent deploy options with an empty description. -/
def agentOptsEmptyDesc : AgentDeployOptions :=
  { agentOptsNoDesc with description := some "" }

/-- Concrete agent deploy options with a non-empty description. -/
def agentOptsDesc : AgentDeployOptions :=
  { agentOptsNoDesc with description := some "hand painted turnip" }

/-- Every run of the deploy try-block either throws or returns the full
success record built from the environment mint keypair. -/
theorem deployAttempt_shape (c : PumpPortalClient) (o : DeployOptions)
    (env : DeployEnv) :
    (∃ e tr, deployAttempt c o env = (Except.error e, tr))
    ∨ (∃ uri sig tr,
        deployAttempt c o env =
          (Except.ok (deploySuccess env.mintKeypair.publicKey sig uri), tr)) := by
  obtain ⟨⟨post⟩, kp, ⟨b, d, s, cf⟩⟩ := env
  rcases post with e | uriOpt
  · exact Or.inl ⟨_, _, rfl⟩
  rcases uriOpt with _ | uri
  · exact Or.inl ⟨_, _, rfl⟩
  by_cases hu : uri = ""
  · subst hu; exact Or.inl ⟨_, _, rfl⟩
  simp only [deployAttempt, uploadMetadata, if_neg hu]
  rcases b with e | dataOpt
  · exact Or.inl ⟨_, _, rfl⟩
  rcases dataOpt with _ | data
  · exact Or.inl ⟨_, _, rfl⟩
  by_cases hd : data = ""
  · subst hd; exact Or.inl ⟨_, _, rfl⟩
  simp only [if_neg hd]
  rcases d with e | u
  · exact Or.inl ⟨_, _, rfl⟩
  rcases s with e | sig
  · exact Or.inl ⟨_, _, rfl⟩
  rcases cf with e | ⟨errOpt⟩
  · exact Or.inl ⟨_, _, rfl⟩
  rcases errOpt with _ | errObj
  · exact Or.inr ⟨_, _, _, rfl⟩
  · exact Or.inl ⟨_, _, rfl⟩

/-- Every deploy result is either the full success record or the bare
failure record. -/
theorem deploy_shape (c : PumpPortalClient) (o : DeployOptions)
    (env : DeployEnv) :
    (∃ uri sig,
        (c.deploy o env).1 = deploySuccess env.mintKeypair.publicKey sig uri)
    ∨ (∃ msg, (c.deploy o env).1 = deployFailure msg) := by
  rcases deployAttempt_shape c o env with ⟨e, tr, h⟩ | ⟨uri, sig, tr, h⟩
  · right
    exact ⟨jsErrorMessage e, by simp [PumpPortalClient.deploy, h, deployFailure]⟩
  · left
    exact ⟨uri, sig, by simp [PumpPortalClient.deploy, h]⟩

/-- Every run of the buy try-block either throws or returns the bare
success record. -/
theorem buyAttempt_shape (c : PumpPortalClient) (mint : String)
    (amt slip : Rat) (env : PipelineEnv) :
    (∃ e tr, buyAttempt c mint amt slip env = (Except.error e, tr))
    ∨ (∃ sig tr, buyAttempt c mint amt slip env =
        (Except.ok (tradeSuccess sig), tr)) := by
  obtain ⟨b, d, s, cf⟩ := env
  rcases b with e | dataOpt
  · exact Or.inl ⟨_, _, rfl⟩
  rcases d with e | u
  · exact Or.inl ⟨_, _, rfl⟩
  rcases s with e | sig
  · exact Or.inl ⟨_, _, rfl⟩
  rcases cf with e | v
  · exact Or.inl ⟨_, _, rfl⟩
  · exact Or.inr ⟨_, _, rfl⟩

/-- Every buy result is either the bare success record or the bare failure
record. -/
theorem buy_shape (c : PumpPortalClient) (mint : String) (amt : Rat)
    (slip : Option Rat) (env : PipelineEnv) :
    (∃ sig, (c.buy mint amt slip env).1 = tradeSuccess sig)
    ∨ (∃ msg, (c.buy mint amt slip env).1 = tradeFailure msg) := by
  rcases buyAttempt_shape c mint amt (slip.getD 10) env with
    ⟨e, tr, h⟩ | ⟨sig, tr, h⟩
  · right
    exact ⟨jsErrorMessage e, by simp [PumpPortalClient.buy, h, tradeFailure]⟩
  · left
    exact ⟨sig, by simp [PumpPortalClient.buy, h]⟩

/-- Every run of the sell try-block either throws or returns the bare
success record. -/
theorem sellAttempt_shape (c : PumpPortalClient) (mint : String)
    (amt slip : Rat) (env : PipelineEnv) :
    (∃ e tr, sellAttempt c mint amt slip env = (Except.error e, tr))
    ∨ (∃ sig tr, sellAttempt c mint amt slip env =
        (Except.ok (tradeSuccess sig), tr)) := by
  obtain ⟨b, d, s, cf⟩ := env
  rcases b with e | dataOpt
  · exact Or.inl ⟨_, _, rfl⟩
  rcases d with e | u
  · exact Or.inl ⟨_, _, rfl⟩
  rcases s with e | sig
  · exact Or.inl ⟨_, _, rfl⟩
  rcases cf with e | v
  · exact Or.inl ⟨_, _, rfl⟩
  · exact Or.inr ⟨_, _, rfl⟩

/-- Every sell result is either the bare success record or the bare failure
record. -/
theorem sell_shape (c : PumpPortalClient) (mint : String) (amt : Rat)
    (slip : Option Rat) (env : PipelineEnv) :
    (∃ sig, (c.sell mint amt slip env).1 = tradeSuccess sig)
    ∨ (∃ msg, (c.sell mint amt slip env).1 = tradeFailure msg) := by
  rcases sellAttempt_shape c mint amt (slip.getD 10) env with
    ⟨e, tr, h⟩ | ⟨sig, tr, h⟩
  · right
    exact ⟨jsErrorMessage e, by simp [PumpPortalClient.sell, h, tradeFailure]⟩
  · left
    exact ⟨sig, by simp [PumpPortalClient.sell, h]⟩

/-- Every broadcast performed by `deploy` uses `deploySendOpts` and every
confirmation is requested at commitment level confirmed. -/
theorem deploy_calls (c : PumpPortalClient) (o : DeployOptions) (env : DeployEnv) :
    (∀ opts, Event.sendCall opts ∈ (c.deploy o env).2 → opts = deploySendOpts)
    ∧ (∀ cm, Event.confirmCall cm ∈ (c.deploy o env).2 → cm = "confirmed") := by
  obtain ⟨⟨post⟩, kp, ⟨b, d, s, cf⟩⟩ := env
  rcases post with e | uriOpt
  · constructor <;> intro x hx <;>
      simp_all [PumpPortalClient.deploy, deployAttempt, uploadMetadata]
  rcases uriOpt with _ | uri
  · constructor <;> intro x hx <;>
      simp_all [PumpPortalClient.deploy, deployAttempt, uploadMetadata]
  by_cases hu : uri = ""
  · subst hu
    constructor <;> intro x hx <;>
      simp_all [PumpPortalClient.deploy, deployAttempt, uploadMetadata]
  rcases b with e | dataOpt
  · constructor <;> intro x hx <;>
      simp_all [PumpPortalClient.deploy, deployAttempt, uploadMetadata]
  rcases dataOpt with _ | data
  · constructor <;> intro x hx <;>
      simp_all [PumpPortalClient.deploy, deployAttempt, uploadMetadata]
  by_cases hd : data = ""
  · subst hd
    constructor <;> intro x hx <;>
      simp_all [PumpPortalClient.deploy, deployAttempt, uploadMetadata]
  rcases d with e | u
  · constructor <;> intro x hx <;>
      simp_all [PumpPortalClient.deploy, deployAttempt, uploadMetadata]
  rcases s with e | sig
  · constructor <;> intro x hx <;>
      simp_all [PumpPortalClient.deploy, deployAttempt, uploadMetadata]
  rcases cf with e | ⟨errOpt⟩
  · constructor <;> intro x hx <;>
      simp_all [PumpPortalClient.deploy, deployAttempt, uploadMetadata]
  rcases errOpt with _ | errObj <;>
    constructor <;> intro x hx <;>
      simp_all [PumpPortalClient.deploy, deployAttempt, uploadMetadata]

/-- Every broadcast performed by `buy` uses `tradeSendOpts` and every
confirmation is requested at commitment level confirmed. -/
theorem buy_calls (c : PumpPortalClient) (mint : String) (amt : Rat)
    (slip : Option Rat) (env : PipelineEnv) :
    (∀ opts, Event.sendCall opts ∈ (c.buy mint amt slip env).2 →
      opts = tradeSendOpts)
    ∧ (∀ cm, Event.confirmCall cm ∈ (c.buy mint amt slip env).2 →
      cm = "confirmed") := by
  obtain ⟨b, d, s, cf⟩ := env
  rcases b with e | dataOpt
  · constructor <;> intro x hx <;> simp_all [PumpPortalClient.buy, buyAttempt]
  rcases d with e | u
  · constructor <;> intro x hx <;> simp_all [PumpPortalClient.buy, buyAttempt]
  rcases s with e | sig
  · constructor <;> intro x hx <;> simp_all [PumpPortalClient.buy, buyAttempt]
  rcases cf with e | v <;>
    constructor <;> intro x hx <;> simp_all [PumpPortalClient.buy, buyAttempt]

/-- Every broadcast performed by `sell` uses `tradeSendOpts` and every
confirmation is requested at commitment level confirmed. -/
theorem sell_calls (c : PumpPortalClient) (mint : String) (amt : Rat)
    (slip : Option Rat) (env : PipelineEnv) :
    (∀ opts, Event.sendCall opts ∈ (c.sell mint amt slip env).2 →
      opts = tradeSendOpts)
    ∧ (∀ cm, Event.confirmCall cm ∈ (c.sell mint amt slip env).2 →
      cm = "confirmed") := by
  obtain ⟨b, d, s, cf⟩ := env
  rcases b with e | dataOpt
  · constructor <;> intro x hx <;> simp_all [PumpPortalClient.sell, sellAttempt]
  rcases d with e | u
  · constructor <;> intro x hx <;> simp_all [PumpPortalClient.sell, sellAttempt]
  rcases s with e | sig
  · constructor <;> intro x hx <;> simp_all [PumpPortalClient.sell, sellAttempt]
  rcases cf with e | v <;>
    constructor <;> intro x hx <;> simp_all [PumpPortalClient.sell, sellAttempt]

/-- Claim C1, counterexample: in a `buy` invocation the broadcast returns a
signature and the confirmation response carries a non-null on-chain error
object, yet the returned result has success = true — the claim that all
three pipelines return success = false in that case is refuted. -/
theorem c1_counterexample :
    pipelineOnChainErr.send = Except.ok "SIG111"
    ∧ pipelineOnChainErr.confirm = Except.ok { err := some "InstructionError" }
    ∧ (clientFixture.buy "MINTADDR" 1 (some 5) pipelineOnChainErr).1 =
        { success := true, signature := some "SIG111", error := none } := by
  exact ⟨rfl, rfl, rfl⟩

/-- Claim C1 (amended): when the broadcast returns a signature and the
confirmation response carries a non-null on-chain error object, `deploy`
returns success = false with an error message derived from that on-chain
error even though a signature exists, while `buy` and `sell` ignore the
confirmation response and return success = true with the signature. -/
theorem c1_onchain_error_result :
    (∀ (c : PumpPortalClient) (o : DeployOptions) (env : DeployEnv)
        (uri data sig e : String),
      uploadMetadata o.metadata env.uploadEnv = Except.ok uri →
      env.pipeline.build = Except.ok (some data) → data ≠ "" →
      env.pipeline.deserialize = Except.ok () →
      env.pipeline.send = Except.ok sig →
      env.pipeline.confirm = Except.ok { err := some e } →
      (c.deploy o env).1 = deployFailure ("Transaction failed: " ++ e))
    ∧ (∀ (c : PumpPortalClient) (mint : String) (amt : Rat)
        (slip : Option Rat) (env : PipelineEnv) (data : Option String)
        (sig e : String),
      env.build = Except.ok data →
      env.deserialize = Except.ok () →
      env.send = Except.ok sig →
      env.confirm = Except.ok { err := some e } →
      (c.buy mint amt slip env).1 = tradeSuccess sig)
    ∧ (∀ (c : PumpPortalClient) (mint : String) (amt : Rat)
        (slip : Option Rat) (env : PipelineEnv) (data : Option String)
        (sig e : String),
      env.build = Except.ok data →
      env.deserialize = Except.ok () →
      env.send = Except.ok sig →
      env.confirm = Except.ok { err := some e } →
      (c.sell mint amt slip env).1 = tradeSuccess sig) := by
  refine ⟨?_, ?_, ?_⟩
  · intro c o env uri data sig e h1 h2 hd h3 h4 h5
    simp [PumpPortalClient.deploy, deployAttempt, h1, h2, h3, h4, h5,
      if_neg hd, deployFailure, jsErrorMessage]
  · intro c mint amt slip env data sig e h1 h2 h3 h4
    simp [PumpPortalClient.buy, buyAttempt, h1, h2, h3, h4, tradeSuccess]
  · intro c mint amt slip env data sig e h1 h2 h3 h4
    simp [PumpPortalClient.sell, sellAttempt, h1, h2, h3, h4, tradeSuccess]

/-- Witness for the amended claim C1 at concrete inputs. -/
theorem c1_onchain_error_result_witness :
    (clientFixture.deploy optsFixture envOnChainErr).1 =
      deployFailure ("Transaction failed: " ++ "InstructionError")
    ∧ (clientFixture.buy "MINTADDR" 1 (some 5) pipelineOnChainErr).1 =
      tradeSuccess "SIG111" := by
  exact ⟨c1_onchain_error_result.1 clientFixture optsFixture envOnChainErr
          "ipfs://meta" "AQID" "SIG111" "InstructionError"
          rfl rfl (by decide) rfl rfl rfl,
        c1_onchain_error_result.2.1 clientFixture "MINTADDR" 1 (some 5)
          pipelineOnChainErr (some "AQID") "SIG111" "InstructionError"
          rfl rfl rfl rfl⟩

/-- Claim C2: evaluation of the trade-construction requests at the boundary
inputs. Omitting slippage defaults the create request to 10, but explicitly
passing slippage = 0 to `deploy` is coerced to 10 by the falsy-or default
`options.slippage || 10`, contradicting the claim; `buy` and `sell`
(TypeScript default parameter) preserve an explicit 0. The deploy request
with the coerced value is the one actually posted. -/
theorem c2_slippage_boundary_eval :
    (createRequest "WALLETADDR" optsFixture "ipfs://meta" "MINTADDR").slippage
      = 10
    ∧ (createRequest "WALLETADDR"
        { metadata := mdFixture, devBuyAmount := none, slippage := some 0 }
        "ipfs://meta" "MINTADDR").slippage = 10
    ∧ Event.buildCall (createRequest "WALLETADDR"
        { metadata := mdFixture, devBuyAmount := none, slippage := some 0 }
        "ipfs://meta" "MINTADDR")
        ∈ (clientFixture.deploy
            { metadata := mdFixture, devBuyAmount := none, slippage := some 0 }
            envOk).2
    ∧ (buyRequest "WALLETADDR" "MINTADDR" 1 0).slippage = 0
    ∧ Event.buildCall (buyRequest "WALLETADDR" "MINTADDR" 1 0)
        ∈ (clientFixture.buy "MINTADDR" 1 (some 0) pipelineOk).2
    ∧ Event.buildCall (sellRequest "WALLETADDR" "MINTADDR" 1 0)
        ∈ (clientFixture.sell "MINTADDR" 1 (some 0) pipelineOk).2 := by
  refine ⟨rfl, ?_, ?_, rfl, ?_, ?_⟩
  · simp [createRequest, jsOrNum]
  · exact List.Mem.tail _ (List.Mem.head _)
  · exact List.Mem.head _
  · exact List.Mem.head _

/-- Claim C3: for any deploy invocation in which upload, build,
deserialization, broadcast and confirmation (null on-chain error) all
succeed, the result is success = true with mint equal to the freshly
generated mint keypair non-empty base58 address, the non-empty broadcast
signature, the uploaded metadata URI, and pumpUrl equal to
https://pump.fun/ concatenated with the mint address. -/
theorem c3_deploy_success_record :
    ∀ (c : PumpPortalClient) (o : DeployOptions) (env : DeployEnv)
      (uri data sig : String),
      uploadMetadata o.metadata env.uploadEnv = Except.ok uri →
      env.pipeline.build = Except.ok (some data) → data ≠ "" →
      env.pipeline.deserialize = Except.ok () →
      env.pipeline.send = Except.ok sig → sig ≠ "" →
      env.pipeline.confirm = Except.ok { err := none } →
      env.mintKeypair.publicKey ≠ "" →
      (c.deploy o env).1 =
        { success := true
          mint := some env.mintKeypair.publicKey
          signature := some sig
          metadataUri := some uri
          pumpUrl := some ("https://pump.fun/" ++ env.mintKeypair.publicKey)
          error := none }
      ∧ (c.deploy o env).1.mint ≠ some ""
      ∧ (c.deploy o env).1.signature ≠ some "" := by
  intro c o env uri data sig h1 h2 hd h3 h4 hs h5 hm
  have hres : (c.deploy o env).1 =
      { success := true
        mint := some env.mintKeypair.publicKey
        signature := some sig
        metadataUri := some uri
        pumpUrl := some ("https://pump.fun/" ++ env.mintKeypair.publicKey)
        error := none } := by
    simp [PumpPortalClient.deploy, deployAttempt, h1, h2, h3, h4, h5,
      if_neg hd]
  refine ⟨hres, ?_, ?_⟩ <;> rw [hres] <;> simp [hm, hs]

/-- Witness for claim C3 at concrete inputs. -/
theorem c3_deploy_success_record_witness :
    (clientFixture.deploy optsFixture envOk).1 =
      { success := true
        mint := some "MINTADDR"
        signature := some "SIG111"
        metadataUri := some "ipfs://meta"
        pumpUrl := some "https://pump.fun/MINTADDR"
        error := none } := by
  exact (c3_deploy_success_record clientFixture optsFixture envOk
    "ipfs://meta" "AQID" "SIG111" rfl rfl (by decide) rfl rfl
    (by decide) rfl (by decide)).1

/-- Claim C4: when the metadata upload throws, the trade-construction
request, deserialization, signing and broadcast are never invoked for that
attempt, and the invocation returns a failure result carrying the upload
error message. -/
theorem c4_upload_failure_short_circuit :
    ∀ (c : PumpPortalClient) (o : DeployOptions) (env : DeployEnv)
      (e : JsException),
      uploadMetadata o.metadata env.uploadEnv = Except.error e →
      (c.deploy o env).2 = [Event.uploadCall]
      ∧ (∀ req, Event.buildCall req ∉ (c.deploy o env).2)
      ∧ Event.deserializeCall ∉ (c.deploy o env).2
      ∧ (∀ ks, Event.signCall ks ∉ (c.deploy o env).2)
      ∧ (∀ opts, Event.sendCall opts ∉ (c.deploy o env).2)
      ∧ (c.deploy o env).1 = deployFailure (jsErrorMessage e) := by
  intro c o env e h
  have hrun : c.deploy o env =
      (deployFailure (jsErrorMessage e), [Event.uploadCall]) := by
    simp [PumpPortalClient.deploy, deployAttempt, h, deployFailure]
  rw [hrun]
  refine ⟨rfl, ?_, ?_, ?_, ?_, rfl⟩ <;> simp

/-- Witness for claim C4 at concrete inputs. -/
theorem c4_upload_failure_short_circuit_witness :
    (clientFixture.deploy optsFixture envUploadFail).2 = [Event.uploadCall]
    ∧ (clientFixture.deploy optsFixture envUploadFail).1 =
        deployFailure "upload boom" := by
  have h := c4_upload_failure_short_circuit clientFixture optsFixture
    envUploadFail (JsException.error "upload boom") rfl
  exact ⟨h.1, h.2.2.2.2.2⟩

/-- Claim C5: every result of `deploy`, `buy` or `sell` is a closed
outcome record: success = true implies no error field, success = false
implies an error is present and all success fields are absent. -/
theorem c5_closed_outcome :
    (∀ (c : PumpPortalClient) (o : DeployOptions) (env : DeployEnv),
      ((c.deploy o env).1.success = true → (c.deploy o env).1.error = none)
      ∧ ((c.deploy o env).1.success = false →
          (c.deploy o env).1.error ≠ none
          ∧ (c.deploy o env).1.mint = none
          ∧ (c.deploy o env).1.signature = none
          ∧ (c.deploy o env).1.metadataUri = none
          ∧ (c.deploy o env).1.pumpUrl = none))
    ∧ (∀ (c : PumpPortalClient) (mint : String) (amt : Rat)
        (slip : Option Rat) (env : PipelineEnv),
      ((c.buy mint amt slip env).1.success = true →
          (c.buy mint amt slip env).1.error = none)
      ∧ ((c.buy mint amt slip env).1.success = false →
          (c.buy mint amt slip env).1.error ≠ none
          ∧ (c.buy mint amt slip env).1.signature = none))
    ∧ (∀ (c : PumpPortalClient) (mint : String) (amt : Rat)
        (slip : Option Rat) (env : PipelineEnv),
      ((c.sell mint amt slip env).1.success = true →
          (c.sell mint amt slip env).1.error = none)
      ∧ ((c.sell mint amt slip env).1.success = false →
          (c.sell mint amt slip env).1.error ≠ none
          ∧ (c.sell mint amt slip env).1.signature = none)) := by
  refine ⟨fun c o env => ?_, fun c mint amt slip env => ?_,
    fun c mint amt slip env => ?_⟩
  · rcases deploy_shape c o env with ⟨uri, sig, h⟩ | ⟨msg, h⟩ <;>
      rw [h] <;> simp [deploySuccess, deployFailure]
  · rcases buy_shape c mint amt slip env with ⟨sig, h⟩ | ⟨msg, h⟩ <;>
      rw [h] <;> simp [tradeSuccess, tradeFailure]
  · rcases sell_shape c mint amt slip env with ⟨sig, h⟩ | ⟨msg, h⟩ <;>
      rw [h] <;> simp [tradeSuccess, tradeFailure]

/-- Witness for claim C5 at concrete inputs. -/
theorem c5_closed_outcome_witness :
    (clientFixture.deploy optsFixture envOk).1.error = none
    ∧ (clientFixture.deploy optsFixture envUploadFail).1.error ≠ none
    ∧ (clientFixture.deploy optsFixture envUploadFail).1.mint = none := by
  refine ⟨(c5_closed_outcome.1 clientFixture optsFixture envOk).1 (by decide),
    ((c5_closed_outcome.1 clientFixture optsFixture envUploadFail).2
      (by decide)).1,
    ((c5_closed_outcome.1 clientFixture optsFixture envUploadFail).2
      (by decide)).2.1⟩

/-- Claim C6: every exception thrown inside the try-block of `deploy`,
`buy` or `sell` is converted at the method boundary into a failure result
whose error field carries the exception message, with the fixed fallback
for non-Error values; no exception propagates. -/
theorem c6_exception_conversion :
    (∀ (c : PumpPortalClient) (o : DeployOptions) (env : DeployEnv)
        (e : JsException) (tr : List Event),
      deployAttempt c o env = (Except.error e, tr) →
      c.deploy o env = (deployFailure (jsErrorMessage e), tr))
    ∧ (∀ (c : PumpPortalClient) (mint : String) (amt : Rat)
        (slip : Option Rat) (env : PipelineEnv) (e : JsException)
        (tr : List Event),
      buyAttempt c mint amt (slip.getD 10) env = (Except.error e, tr) →
      c.buy mint amt slip env = (tradeFailure (jsErrorMessage e), tr))
    ∧ (∀ (c : PumpPortalClient) (mint : String) (amt : Rat)
        (slip : Option Rat) (env : PipelineEnv) (e : JsException)
        (tr : List Event),
      sellAttempt c mint amt (slip.getD 10) env = (Except.error e, tr) →
      c.sell mint amt slip env = (tradeFailure (jsErrorMessage e), tr))
    ∧ jsErrorMessage JsException.nonError = "Unknown error"
    ∧ (∀ m, jsErrorMessage (JsException.error m) = m) := by
  refine ⟨?_, ?_, ?_, rfl, fun m => rfl⟩
  · intro c o env e tr h
    simp [PumpPortalClient.deploy, h, deployFailure]
  · intro c mint amt slip env e tr h
    simp [PumpPortalClient.buy, h, tradeFailure]
  · intro c mint amt slip env e tr h
    simp [PumpPortalClient.sell, h, tradeFailure]

/-- Witness for claim C6 at concrete inputs. -/
theorem c6_exception_conversion_witness :
    clientFixture.deploy optsFixture envUploadFail =
      (deployFailure "upload boom", [Event.uploadCall]) := by
  exact c6_exception_conversion.1 clientFixture optsFixture envUploadFail
    (JsException.error "upload boom") [Event.uploadCall] rfl

/-- Claim C7, counterexample: the broadcast performed by `buy` passes no
maxRetries field (so not maxRetries = 3), refuting the claim that every
broadcast of the pipeline passes maxRetries = 3. -/
theorem c7_counterexample :
    Event.sendCall
        { skipPreflight := false
          preflightCommitment := "confirmed"
          maxRetries := none }
      ∈ (clientFixture.buy "MINTADDR" 1 (some 5) pipelineOk).2
    ∧ ({ skipPreflight := false
         preflightCommitment := "confirmed"
         maxRetries := none } : SendOptions).maxRetries ≠ some 3 := by
  refine ⟨?_, by decide⟩
  exact List.Mem.tail _ (List.Mem.tail _ (List.Mem.tail _ (List.Mem.head _)))

/-- Claim C7 (amended): every broadcast of `deploy` calls sendTransaction
with skipPreflight = false, preflightCommitment confirmed and
maxRetries = 3, while `buy` and `sell` pass skipPreflight = false and
preflightCommitment confirmed but omit maxRetries; every confirmation of
all three methods is requested at commitment confirmed. -/
theorem c7_send_confirm_parameters :
    (∀ (c : PumpPortalClient) (o : DeployOptions) (env : DeployEnv) opts,
      Event.sendCall opts ∈ (c.deploy o env).2 →
      opts = { skipPreflight := false
               preflightCommitment := "confirmed"
               maxRetries := some 3 })
    ∧ (∀ (c : PumpPortalClient) (mint : String) (amt : Rat)
        (slip : Option Rat) (env : PipelineEnv) opts,
      Event.sendCall opts ∈ (c.buy mint amt slip env).2 →
      opts = { skipPreflight := false
               preflightCommitment := "confirmed"
               maxRetries := none })
    ∧ (∀ (c : PumpPortalClient) (mint : String) (amt : Rat)
        (slip : Option Rat) (env : PipelineEnv) opts,
      Event.sendCall opts ∈ (c.sell mint amt slip env).2 →
      opts = { skipPreflight := false
               preflightCommitment := "confirmed"
               maxRetries := none })
    ∧ (∀ (c : PumpPortalClient) (o : DeployOptions) (env : DeployEnv) cm,
      Event.confirmCall cm ∈ (c.deploy o env).2 → cm = "confirmed")
    ∧ (∀ (c : PumpPortalClient) (mint : String) (amt : Rat)
        (slip : Option Rat) (env : PipelineEnv) cm,
      Event.confirmCall cm ∈ (c.buy mint amt slip env).2 → cm = "confirmed")
    ∧ (∀ (c : PumpPortalClient) (mint : String) (amt : Rat)
        (slip : Option Rat) (env : PipelineEnv) cm,
      Event.confirmCall cm ∈ (c.sell mint amt slip env).2 →
      cm = "confirmed") := by
  exact ⟨fun c o env => (deploy_calls c o env).1,
    fun c mint amt slip env => (buy_calls c mint amt slip env).1,
    fun c mint amt slip env => (sell_calls c mint amt slip env).1,
    fun c o env => (deploy_calls c o env).2,
    fun c mint amt slip env => (buy_calls c mint amt slip env).2,
    fun c mint amt slip env => (sell_calls c mint amt slip env).2⟩

/-- Witness for the amended claim C7 at concrete inputs. -/
theorem c7_send_confirm_parameters_witness :
    deploySendOpts =
      { skipPreflight := false
        preflightCommitment := "confirmed"
        maxRetries := some 3 }
    ∧ tradeSendOpts =
      { skipPreflight := false
        preflightCommitment := "confirmed"
        maxRetries := none } := by
  exact ⟨c7_send_confirm_parameters.1 clientFixture optsFixture envOk
      deploySendOpts
      (List.Mem.tail _ (List.Mem.tail _ (List.Mem.tail _
        (List.Mem.tail _ (List.Mem.head _))))),
    c7_send_confirm_parameters.2.1 clientFixture "MINTADDR" 1 none
      pipelineOk tradeSendOpts
      (List.Mem.tail _ (List.Mem.tail _ (List.Mem.tail _
        (List.Mem.head _))))⟩

/-- Claim C8, counterexample: through the agent-level wrapper an omitted
devBuyAmount falls back to the configured config.devBuyAmount, so with a
configured amount of 5 the create request carries amount 5, not 0 — the
omission half of the claim fails at the wrapper level. -/
theorem c8_counterexample :
    agentOptsNoDesc.devBuyAmount = none
    ∧ (createRequest "WALLETADDR"
        (agentDeployOptions
          { defaultSlippage := none, devBuyAmount := some 5 }
          agentOptsNoDesc)
        "ipfs://meta" "MINTADDR").amount = 5
    ∧ (5 : Rat) ≠ 0 := by
  refine ⟨rfl, ?_, by norm_num⟩
  norm_num [createRequest, jsOrNum, agentDeployOptions, agentOptsNoDesc]

/-- Claim C8 (amended): omitting devBuyAmount in a direct client deploy
sets the create-request amount to 0, and explicitly passing
devBuyAmount = 0 yields amount 0 both directly and through the agent-level
wrapper (never replaced by a non-zero default, even a configured one); an
agent-level omission yields 0 when the config leaves devBuyAmount unset
(otherwise it deliberately falls back to the configured amount). -/
theorem c8_dev_buy_amount_zero :
    (∀ (w : String) (o : DeployOptions) (uri m : String),
      o.devBuyAmount = none → (createRequest w o uri m).amount = 0)
    ∧ (∀ (w : String) (o : DeployOptions) (uri m : String),
      o.devBuyAmount = some 0 → (createRequest w o uri m).amount = 0)
    ∧ (∀ (w : String) (cfg : TurnipConfig) (o : AgentDeployOptions)
        (uri m : String),
      o.devBuyAmount = some 0 →
      (createRequest w (agentDeployOptions cfg o) uri m).amount = 0)
    ∧ (∀ (w : String) (cfg : TurnipConfig) (o : AgentDeployOptions)
        (uri m : String),
      o.devBuyAmount = none → cfg.devBuyAmount = none →
      (createRequest w (agentDeployOptions cfg o) uri m).amount = 0) := by
  refine ⟨?_, ?_, ?_, ?_⟩
  · intro w o uri m h
    simp [createRequest, jsOrNum, h]
  · intro w o uri m h
    simp [createRequest, jsOrNum, h]
  · intro w cfg o uri m h
    simp [createRequest, jsOrNum, agentDeployOptions, h]
  · intro w cfg o uri m h hc
    simp [createRequest, jsOrNum, agentDeployOptions, h, hc]

/-- Witness for claim C8 at concrete inputs. -/
theorem c8_dev_buy_amount_zero_witness :
    (createRequest "WALLETADDR" optsFixture "ipfs://meta" "MINTADDR").amount
      = 0
    ∧ (createRequest "WALLETADDR"
        { metadata := mdFixture, devBuyAmount := some 0, slippage := none }
        "ipfs://meta" "MINTADDR").amount = 0
    ∧ (createRequest "WALLETADDR"
        (agentDeployOptions { defaultSlippage := none, devBuyAmount := some 5 }
          { agentOptsNoDesc with devBuyAmount := some 0 })
        "ipfs://meta" "MINTADDR").amount = 0
    ∧ (createRequest "WALLETADDR"
        (agentDeployOptions { defaultSlippage := none, devBuyAmount := none }
          agentOptsNoDesc)
        "ipfs://meta" "MINTADDR").amount = 0 := by
  exact ⟨c8_dev_buy_amount_zero.1 "WALLETADDR" optsFixture "ipfs://meta"
      "MINTADDR" rfl,
    c8_dev_buy_amount_zero.2.1 "WALLETADDR"
      { metadata := mdFixture, devBuyAmount := some 0, slippage := none }
      "ipfs://meta" "MINTADDR" rfl,
    c8_dev_buy_amount_zero.2.2.1 "WALLETADDR"
      { defaultSlippage := none, devBuyAmount := some 5 }
      { agentOptsNoDesc with devBuyAmount := some 0 }
      "ipfs://meta" "MINTADDR" rfl,
    c8_dev_buy_amount_zero.2.2.2 "WALLETADDR"
      { defaultSlippage := none, devBuyAmount := none }
      agentOptsNoDesc "ipfs://meta" "MINTADDR" rfl rfl⟩

/-- Claim C9: the mint identity of every deploy invocation is the freshly
generated keypair of that invocation, so two invocations whose generated
keypairs differ produce success records with distinct mint addresses. -/
theorem c9_fresh_mint_distinct :
    ∀ (c1 : PumpPortalClient) (o1 : DeployOptions) (env1 : DeployEnv)
      (c2 : PumpPortalClient) (o2 : DeployOptions) (env2 : DeployEnv),
      env1.mintKeypair ≠ env2.mintKeypair →
      (c1.deploy o1 env1).1.success = true →
      (c2.deploy o2 env2).1.success = true →
      (c1.deploy o1 env1).1.mint = some env1.mintKeypair.publicKey
      ∧ (c2.deploy o2 env2).1.mint = some env2.mintKeypair.publicKey
      ∧ (c1.deploy o1 env1).1.mint ≠ (c2.deploy o2 env2).1.mint := by
  intro c1 o1 env1 c2 o2 env2 hkp h1 h2
  have hm1 : (c1.deploy o1 env1).1.mint = some env1.mintKeypair.publicKey := by
    rcases deploy_shape c1 o1 env1 with ⟨uri, sig, h⟩ | ⟨msg, h⟩
    · rw [h]; rfl
    · rw [h] at h1; simp [deployFailure] at h1
  have hm2 : (c2.deploy o2 env2).1.mint = some env2.mintKeypair.publicKey := by
    rcases deploy_shape c2 o2 env2 with ⟨uri, sig, h⟩ | ⟨msg, h⟩
    · rw [h]; rfl
    · rw [h] at h2; simp [deployFailure] at h2
  have hpk : env1.mintKeypair.publicKey ≠ env2.mintKeypair.publicKey := by
    intro heq
    exact hkp (congrArg Keypair.mk heq)
  refine ⟨hm1, hm2, ?_⟩
  rw [hm1, hm2]
  simp [hpk]

/-- Witness for claim C9 at concrete inputs. -/
theorem c9_fresh_mint_distinct_witness :
    (clientFixture.deploy optsFixture envOk).1.mint = some "MINTADDR"
    ∧ (clientFixture.deploy optsFixture envOk2).1.mint = some "MINTADDR2"
    ∧ (clientFixture.deploy optsFixture envOk).1.mint ≠
        (clientFixture.deploy optsFixture envOk2).1.mint := by
  exact c9_fresh_mint_distinct clientFixture optsFixture envOk
    clientFixture optsFixture envOk2 (by decide) (by decide) (by decide)

/-- Claim C10: in the agent-level deploy, an omitted or empty caller
description yields the metadata description name plus the fixed
AI-generated art token suffix, and a non-empty description passes through
unchanged; the metadata built this way is exactly what the wrapper hands
to the client deploy. -/
theorem c10_description_default :
    (∀ (cfg : TurnipConfig) (o : AgentDeployOptions),
      (agentDeployOptions cfg o).metadata = agentMetadata o)
    ∧ (∀ o : AgentDeployOptions, o.description = none →
      (agentMetadata o).description =
        o.name ++ " - AI-generated art token")
    ∧ (∀ o : AgentDeployOptions, o.description = some "" →
      (agentMetadata o).description =
        o.name ++ " - AI-generated art token")
    ∧ (∀ (o : AgentDeployOptions) (d : String), o.description = some d →
      d ≠ "" → (agentMetadata o).description = d) := by
  refine ⟨fun cfg o => rfl, ?_, ?_, ?_⟩
  · intro o h
    simp [agentMetadata, jsOrStr, h]
  · intro o h
    simp [agentMetadata, jsOrStr, h]
  · intro o d h hd
    simp [agentMetadata, jsOrStr, h, hd]

/-- Witness for claim C10 at concrete inputs. -/
theorem c10_description_default_witness :
    (agentMetadata agentOptsNoDesc).description =
      "Cosmic Turnip - AI-generated art token"
    ∧ (agentMetadata agentOptsEmptyDesc).description =
      "Cosmic Turnip - AI-generated art token"
    ∧ (agentMetadata agentOptsDesc).description = "hand painted turnip" := by
  exact ⟨c10_description_default.2.1 agentOptsNoDesc rfl,
    c10_description_default.2.2.1 agentOptsEmptyDesc rfl,
    c10_description_default.2.2.2 agentOptsDesc "hand painted turnip" rfl
      (by decide)⟩

end Turnip
